import Mathlib

/-!
Shallow embedding of the streaming chat session manager of the
starfire-client repository.  Two views embed a copy of the manager:
namespace ChatComponent models src/components/ChatComponent.tsx and
namespace ProjectsChat models src/components/projects/Chat.tsx.  Both
operate on the shared SessionState record below, which gathers the React
state hooks and refs of each component plus bookkeeping for sockets,
reconnect timers and outbound frames.
-/

/-- The discriminant of InternalMessage.type in both chat components. -/
inductive MsgType where
  | query
  | chunk
  | response
  | error
  | system
deriving DecidableEq, Repr

/-- The InternalMessage interface of both components: a transcript turn.
The optional isComplete field is modelled as Option Bool; none models a
JavaScript object created without the field (undefined). -/
structure InternalMessage where
  type : MsgType
  content : String
  isComplete : Option Bool
deriving DecidableEq, Repr

/-- An inbound socket frame after JSON.parse, restricted to the fields the
onmessage handlers read: type, data, message and error.  A missing field is
none (undefined in JavaScript). -/
structure Frame where
  type : Option String
  data : Option String
  message : Option String
  error : Option String
deriving DecidableEq, Repr

/-- Outbound frames produced by the two components: the query submission
frame, the cancel frame of ChatComponent.tsx (type:'cancel') and the cancel
frame of projects/Chat.tsx (cancel:true). -/
inductive OutFrame where
  | queryFrame (query : String) (sessionId : String)
  | cancelTypeFrame (sessionId : String)
  | cancelFlagFrame (sessionId : String)
deriving DecidableEq, Repr

/-- WebSocket.readyState values. -/
inductive ReadyState where
  | CONNECTING
  | OPEN
  | CLOSING
  | CLOSED
deriving DecidableEq, Repr

/-- A WebSocket handle: the url it was created with and its ready state. -/
structure Socket where
  url : String
  readyState : ReadyState
deriving DecidableEq, Repr

/-- JavaScript truthiness of an optional string field: undefined and the
empty string are falsy. -/
def truthy : Option String → Bool
  | none => false
  | some s => s != ""

/-- String coercion of an optional string as JavaScript concatenation
performs it: a missing field (undefined) prints as "undefined". -/
def jsStr : Option String → String
  | none => "undefined"
  | some s => s

/-- The JavaScript String.startsWith test, computed on character data. -/
def strStartsWith (s pre : String) : Bool :=
  pre.data.isPrefixOf s.data

/-- Drop the first n characters of a string, computed on character data
(the JavaScript slice the scheme replacement amounts to). -/
def strDrop (s : String) (n : Nat) : String :=
  String.mk (s.data.drop n)

/-- The wsRef.current?.readyState === WebSocket.OPEN test. -/
def wsIsOpen : Option Socket → Bool
  | none => false
  | some w => w.readyState = ReadyState.OPEN

/-- The state of one chat view: React state hooks (connected, chatMessages,
query, isStreaming, isWaitingForResponse), refs (sessionId, wsRef,
currentResponseIndexRef), and model bookkeeping: how many reconnect timers
are pending, how many sockets were ever created, the log of outbound
frames, and the environment (page scheme and Vite env variables). -/
structure SessionState where
  connected : Bool
  chatMessages : List InternalMessage
  query : String
  isStreaming : Bool
  isWaitingForResponse : Bool
  sessionId : String
  currentResponseIndex : Int
  ws : Option Socket
  pendingReconnects : Nat
  socketsCreated : Nat
  sent : List OutFrame
  pageHttps : Bool
  envWsUrl : Option String
  envApiHost : Option String
deriving DecidableEq, Repr

/-- The state at component mount: no messages, empty query, all flags
false, currentResponseIndexRef initialised to -1, no socket. -/
def initState (sid : String) (pageHttps : Bool)
    (envWsUrl envApiHost : Option String) : SessionState :=
  { connected := false
    chatMessages := []
    query := ""
    isStreaming := false
    isWaitingForResponse := false
    sessionId := sid
    currentResponseIndex := -1
    ws := none
    pendingReconnects := 0
    socketsCreated := 0
    sent := []
    pageHttps := pageHttps
    envWsUrl := envWsUrl
    envApiHost := envApiHost }

/-- The addMessage helper, identical in both components: append one turn;
call sites pass the default isComplete = true. -/
def addMessage (type : MsgType) (content : String) (isComplete : Bool)
    (s : SessionState) : SessionState :=
  { s with chatMessages :=
      s.chatMessages ++ [{ type := type, content := content, isComplete := some isComplete }] }

/-- The in-range test both components run on currentResponseIndexRef:
non-negative and below the transcript length. -/
def validIdx (i : Int) (n : Nat) : Prop := 0 ≤ i ∧ i.toNat < n

instance (i : Int) (n : Nat) : Decidable (validIdx i n) := by
  unfold validIdx; infer_instance

/-- The ws.onopen handler, identical in both components: the socket reports
OPEN, connected becomes true and a system notice is appended. -/
def onopen (s : SessionState) : SessionState :=
  match s.ws with
  | some w =>
      addMessage .system "Connected to WebSocket" true
        { s with ws := some { w with readyState := .OPEN }, connected := true }
  | none => s

/-- The ws.onclose handler, identical in both components: the socket (still
referenced or already released) is closed, connected becomes false, a
system notice is appended and a reconnect timer is scheduled.  The handler
itself never reads wsRef, so it runs the same way after disposal. -/
def onclose (s : SessionState) : SessionState :=
  let s1 :=
    match s.ws with
    | some w => { s with ws := some { w with readyState := .CLOSED } }
    | none => s
  let s2 := addMessage .system "Disconnected from WebSocket" true
    { s1 with connected := false }
  { s2 with pendingReconnects := s2.pendingReconnects + 1 }

/-- The ws.onerror handler, identical in both components. -/
def onerror (e : String) (s : SessionState) : SessionState :=
  addMessage .error ("WebSocket Error: " ++ e) true { s with connected := false }

/-- The disconnect function, identical in both components: close the socket
and null the ref; no timer is cancelled. -/
def disconnect (s : SessionState) : SessionState :=
  match s.ws with
  | some _ => { s with ws := none }
  | none => s

namespace ChatComponent

/-- The WebSocket URL of ChatComponent.tsx:
import.meta.env.VITE_WEB_SOCKET_URL or a hardcoded insecure default; the
page scheme is never consulted. -/
def wsUrl (envWsUrl : Option String) : String :=
  if truthy envWsUrl then jsStr envWsUrl else "ws://localhost:8000/ws/query"

/-- The connect function of ChatComponent.tsx: a no-op when the current
socket is OPEN, otherwise a new WebSocket is created on wsUrl. -/
def connect (s : SessionState) : SessionState :=
  if wsIsOpen s.ws then s
  else
    { s with ws := some { url := wsUrl s.envWsUrl, readyState := .CONNECTING }
             socketsCreated := s.socketsCreated + 1 }

/-- The reconnect timer callback scheduled by ws.onclose in
ChatComponent.tsx: after the 3000 ms delay, call connect when wsRef is null
or the referenced socket is CLOSED. -/
def reconnectTick (s : SessionState) : SessionState :=
  if s.pendingReconnects = 0 then s
  else
    let s1 := { s with pendingReconnects := s.pendingReconnects - 1 }
    match s1.ws with
    | none => connect s1
    | some w => if w.readyState = .CLOSED then connect s1 else s1

/-- The appendResponseChunk function of ChatComponent.tsx: while the
in-progress index is in range the fragment is concatenated onto that
turn's content; otherwise a new chunk turn is appended (note: created
without the isComplete field) and the index records its position. -/
def appendResponseChunk (chunk : String) (s : SessionState) : SessionState :=
  let s1 := { s with isStreaming := true, isWaitingForResponse := false }
  if h : validIdx s1.currentResponseIndex s1.chatMessages.length then
    let cur := s1.chatMessages.get ⟨s1.currentResponseIndex.toNat, h.2⟩
    { s1 with chatMessages :=
        (s1.chatMessages.set s1.currentResponseIndex.toNat
          { cur with content := cur.content ++ chunk }) }
  else
    let msgs := s1.chatMessages ++ [{ type := .chunk, content := chunk, isComplete := none }]
    { s1 with chatMessages := msgs, currentResponseIndex := (s1.chatMessages.length : Int) }

/-- The completeCurrentResponse function of ChatComponent.tsx: clear the
streaming and waiting flags and reset the in-progress index when it is
non-negative.  The transcript is never touched: no turn is marked
complete. -/
def completeCurrentResponse (s : SessionState) : SessionState :=
  let s1 := { s with isStreaming := false, isWaitingForResponse := false }
  if 0 ≤ s1.currentResponseIndex then { s1 with currentResponseIndex := -1 } else s1

/-- The ws.onmessage handler of ChatComponent.tsx, dispatching on the
parsed frame. -/
def onmessage (f : Frame) (s : SessionState) : SessionState :=
  if f.type = some "chunk" then
    appendResponseChunk (jsStr f.data) s
  else if f.type = some "end" ∨ f.type = some "done" then
    let s1 := completeCurrentResponse s
    let s2 := { s1 with isStreaming := false, isWaitingForResponse := false }
    addMessage .system "--- End of Response ---" true s2
  else if f.type = some "cancelled" then
    let s1 := completeCurrentResponse s
    let s2 := { s1 with isStreaming := false, isWaitingForResponse := false }
    addMessage .system ("--- Request cancelled: " ++ jsStr f.message ++ " ---") true s2
  else if truthy f.error then
    addMessage .error ("Error: " ++ jsStr f.error) true
      { s with isStreaming := false, isWaitingForResponse := false }
  else s

/-- The sendQuery function of ChatComponent.tsx: a no-op when the query is
empty after trimming or the socket is not OPEN; otherwise append the user
turn, send the query frame and clear the input. -/
def sendQuery (s : SessionState) : SessionState :=
  if s.query.trim = "" ∨ wsIsOpen s.ws = false then s
  else
    let s1 := { s with isStreaming := false, isWaitingForResponse := true }
    let s2 := addMessage .query s1.query true s1
    let s3 := { s2 with sent := s2.sent ++ [OutFrame.queryFrame s2.query s2.sessionId] }
    { s3 with query := "" }

/-- The cancelRequest function of ChatComponent.tsx: when the socket is
OPEN, clear the flags, send a type:'cancel' frame and append a system
notice; completeCurrentResponse is NOT called. -/
def cancelRequest (s : SessionState) : SessionState :=
  if wsIsOpen s.ws = false then s
  else
    let s1 := { s with isStreaming := false, isWaitingForResponse := false }
    let s2 := { s1 with sent := s1.sent ++ [OutFrame.cancelTypeFrame s1.sessionId] }
    addMessage .system "--- Cancellation requested ---" true s2

/-- The handleNewSession function of ChatComponent.tsx: fresh session id,
cleared transcript and input, cleared flags, then a system notice.  The
currentResponseIndexRef is NOT reset. -/
def handleNewSession (sid : String) (s : SessionState) : SessionState :=
  let s1 := { s with sessionId := sid, chatMessages := [], query := ""
                     isStreaming := false, isWaitingForResponse := false }
  addMessage .system ("New session started: " ++ sid) true s1

end ChatComponent

namespace ProjectsChat

/-- The WebSocket URL of projects/Chat.tsx: the env URL when provided, with
its ws:// scheme upgraded to wss:// when the page is served over https;
otherwise a URL built from the page-dependent protocol and the env host.
The source uses the JavaScript replace of the first occurrence of "ws://";
under the startsWith guard that occurrence is the five-character prefix. -/
def wsUrl (pageHttps : Bool) (envWsUrl envApiHost : Option String) : String :=
  let protocol := if pageHttps then "wss:" else "ws:"
  if truthy envWsUrl then
    let u := jsStr envWsUrl
    if strStartsWith u "ws://" = true ∧ protocol = "wss:" then "wss://" ++ strDrop u 5
    else u
  else
    let wsHost := if truthy envApiHost then jsStr envApiHost else "localhost:8000"
    protocol ++ "//" ++ wsHost ++ "/ws/query"

/-- The connect function of projects/Chat.tsx: a no-op when the current
socket is OPEN, otherwise a new WebSocket is created on wsUrl. -/
def connect (s : SessionState) : SessionState :=
  if wsIsOpen s.ws then s
  else
    { s with ws := some { url := wsUrl s.pageHttps s.envWsUrl s.envApiHost
                          readyState := .CONNECTING }
             socketsCreated := s.socketsCreated + 1 }

/-- The reconnect timer callback scheduled by ws.onclose in
projects/Chat.tsx. -/
def reconnectTick (s : SessionState) : SessionState :=
  if s.pendingReconnects = 0 then s
  else
    let s1 := { s with pendingReconnects := s.pendingReconnects - 1 }
    match s1.ws with
    | none => connect s1
    | some w => if w.readyState = .CLOSED then connect s1 else s1

/-- The appendResponseChunk function of projects/Chat.tsx: identical to the
ChatComponent one except that a freshly created chunk turn carries
isComplete = false explicitly. -/
def appendResponseChunk (chunk : String) (s : SessionState) : SessionState :=
  let s1 := { s with isStreaming := true, isWaitingForResponse := false }
  if h : validIdx s1.currentResponseIndex s1.chatMessages.length then
    let cur := s1.chatMessages.get ⟨s1.currentResponseIndex.toNat, h.2⟩
    { s1 with chatMessages :=
        (s1.chatMessages.set s1.currentResponseIndex.toNat
          { cur with content := cur.content ++ chunk }) }
  else
    let msgs := s1.chatMessages ++ [{ type := .chunk, content := chunk, isComplete := some false }]
    { s1 with chatMessages := msgs, currentResponseIndex := (s1.chatMessages.length : Int) }

/-- The completeCurrentResponse function of projects/Chat.tsx: when the
in-progress index is in range, the referenced turn becomes a completed
response ('response', isComplete = true) and the index is reset; otherwise
nothing changes (the index is not reset either).  The flags are not
touched here. -/
def completeCurrentResponse (s : SessionState) : SessionState :=
  if h : validIdx s.currentResponseIndex s.chatMessages.length then
    let cur := s.chatMessages.get ⟨s.currentResponseIndex.toNat, h.2⟩
    let msgs := s.chatMessages.set s.currentResponseIndex.toNat
      { cur with type := .response, isComplete := some true }
    { s with chatMessages := msgs, currentResponseIndex := -1 }
  else s

/-- The ws.onmessage handler of projects/Chat.tsx. -/
def onmessage (f : Frame) (s : SessionState) : SessionState :=
  if f.type = some "chunk" then
    appendResponseChunk (jsStr f.data) s
  else if f.type = some "end" ∨ f.type = some "done" then
    let s1 := completeCurrentResponse s
    let s2 := { s1 with isStreaming := false, isWaitingForResponse := false }
    addMessage .system "--- End of Response ---" true s2
  else if f.type = some "cancelled" then
    let s1 := completeCurrentResponse s
    let s2 := { s1 with isStreaming := false, isWaitingForResponse := false }
    addMessage .system ("--- Request cancelled: " ++ jsStr f.message ++ " ---") true s2
  else if truthy f.error then
    addMessage .error ("Error: " ++ jsStr f.error) true
      { s with isStreaming := false, isWaitingForResponse := false }
  else s

/-- The sendQuery function of projects/Chat.tsx (identical to the
ChatComponent one). -/
def sendQuery (s : SessionState) : SessionState :=
  if s.query.trim = "" ∨ wsIsOpen s.ws = false then s
  else
    let s1 := { s with isStreaming := false, isWaitingForResponse := true }
    let s2 := addMessage .query s1.query true s1
    let s3 := { s2 with sent := s2.sent ++ [OutFrame.queryFrame s2.query s2.sessionId] }
    { s3 with query := "" }

/-- The cancelRequest function of projects/Chat.tsx: when the socket is
OPEN, send a cancel:true frame, clear the flags, run
completeCurrentResponse and append a system notice. -/
def cancelRequest (s : SessionState) : SessionState :=
  if wsIsOpen s.ws = false then s
  else
    let s1 := { s with sent := s.sent ++ [OutFrame.cancelFlagFrame s.sessionId] }
    let s2 := { s1 with isStreaming := false, isWaitingForResponse := false }
    let s3 := completeCurrentResponse s2
    addMessage .system "--- Request cancelled by user ---" true s3

/-- The handleNewSession function of projects/Chat.tsx: fresh session id,
cleared transcript, then a system notice.  Flags, query and the
currentResponseIndexRef are NOT reset. -/
def handleNewSession (sid : String) (s : SessionState) : SessionState :=
  let s1 := { s with sessionId := sid, chatMessages := [] }
  addMessage .system "--- New Session Started ---" true s1

/-- Every event that can mutate the session state of projects/Chat.tsx:
inbound frames, socket lifecycle events, the reconnect timer, user input
and the user-triggered actions. -/
inductive PEvent where
  | msg (f : Frame)
  | openEv
  | closeEv
  | errEv (e : String)
  | typeQuery (q : String)
  | send
  | cancel
  | newSession (sid : String)
  | connectEv
  | disconnectEv
  | timer
deriving Repr

/-- One step of the projects/Chat.tsx event loop. -/
def pstep (e : PEvent) (s : SessionState) : SessionState :=
  match e with
  | .msg f => onmessage f s
  | .openEv => onopen s
  | .closeEv => onclose s
  | .errEv e => onerror e s
  | .typeQuery q => { s with query := q }
  | .send => sendQuery s
  | .cancel => cancelRequest s
  | .newSession sid => handleNewSession sid s
  | .connectEv => connect s
  | .disconnectEv => disconnect s
  | .timer => reconnectTick s

/-- Run a sequence of events from a given state. -/
def run (evs : List PEvent) (s : SessionState) : SessionState :=
  evs.foldl (fun t e => pstep e t) s

end ProjectsChat

/-- Concatenation of a list of fragments in delivery order. -/
def concatAll : List String → String
  | [] => ""
  | c :: cs => c ++ concatAll cs

/-- At most one transcript turn is incomplete (its complete flag is not
true). -/
def atMostOneIncomplete (s : SessionState) : Prop :=
  ∀ i j : Nat, (hi : i < s.chatMessages.length) → (hj : j < s.chatMessages.length) →
    (s.chatMessages[i]).isComplete ≠ some true →
    (s.chatMessages[j]).isComplete ≠ some true → i = j

namespace ChatComponent

/-- Processing a sequence of chunk payloads in delivery order. -/
def appendChunks (cs : List String) (s : SessionState) : SessionState :=
  cs.foldl (fun t c => appendResponseChunk c t) s

end ChatComponent

namespace ProjectsChat

/-- Processing a sequence of chunk payloads in delivery order. -/
def appendChunks (cs : List String) (s : SessionState) : SessionState :=
  cs.foldl (fun t c => appendResponseChunk c t) s

end ProjectsChat

/-- The system notice appended by a finalizing frame: the cancelled notice
carries the frame's message, the end and done notices are fixed. -/
def endNotice (f : Frame) : String :=
  if f.type = some "cancelled" then "--- Request cancelled: " ++ jsStr f.message ++ " ---"
  else "--- End of Response ---"

/-- Total access to a transcript turn: the turn at position i, or a dummy
system turn when i is out of range (never the case where it is used). -/
def turnAt (l : List InternalMessage) (i : Nat) : InternalMessage :=
  l.getD i { type := .system, content := "", isComplete := none }

/-- Any turn whose complete flag is not true sits exactly at index k:
the list-level form of the single-in-progress invariant. -/
def IncompleteOnlyAt (l : List InternalMessage) (k : Int) : Prop :=
  ∀ i : Nat, (hi : i < l.length) → (l[i]).isComplete ≠ some true → k = (i : Int)

/-- The inductive invariant of a session state: every incomplete turn sits
at the in-progress reference. -/
def IncompleteAtRef (s : SessionState) : Prop :=
  IncompleteOnlyAt s.chatMessages s.currentResponseIndex

/-! Helper lemmas about lists and the branch behavior of the embedded
functions. -/

theorem turnAt_eq_get (l : List InternalMessage) (i : Nat) (h : i < l.length) :
    turnAt l i = l.get ⟨i, h⟩ := by
  simp [turnAt, List.getD_eq_getElem?_getD, List.getElem?_eq_getElem h, List.get_eq_getElem]

theorem turnAt_set (l : List InternalMessage) (i : Nat) (a : InternalMessage)
    (h : i < l.length) : turnAt (l.set i a) i = a := by
  simp [turnAt, List.getD_eq_getElem?_getD, List.getElem?_set_self h]

theorem set_get_self {α : Type} (l : List α) (i : Nat) (h : i < l.length) :
    l.set i (l.get ⟨i, h⟩) = l := by
  apply List.ext_getElem
  · simp
  · intro j h1 h2
    rw [List.getElem_set]
    split
    · next heq => subst heq; rfl
    · rfl

namespace ChatComponent

theorem appendResponseChunk_valid_cc (c : String) (s : SessionState)
    (h : validIdx s.currentResponseIndex s.chatMessages.length) :
    appendResponseChunk c s =
      { s with isStreaming := true, isWaitingForResponse := false
               chatMessages :=
                 (s.chatMessages.set s.currentResponseIndex.toNat
                   { turnAt s.chatMessages s.currentResponseIndex.toNat with
                       content :=
                         (turnAt s.chatMessages s.currentResponseIndex.toNat).content
                           ++ c }) } := by
  simp only [appendResponseChunk]
  rw [dif_pos h, turnAt_eq_get _ _ h.2]

theorem appendResponseChunk_invalid_cc (c : String) (s : SessionState)
    (h : ¬ validIdx s.currentResponseIndex s.chatMessages.length) :
    appendResponseChunk c s =
      { s with isStreaming := true, isWaitingForResponse := false
               chatMessages :=
                 s.chatMessages ++ [{ type := .chunk, content := c, isComplete := none }]
               currentResponseIndex := (s.chatMessages.length : Int) } := by
  simp only [appendResponseChunk]
  rw [dif_neg h]

end ChatComponent

namespace ProjectsChat

theorem appendResponseChunk_valid_pc (c : String) (s : SessionState)
    (h : validIdx s.currentResponseIndex s.chatMessages.length) :
    appendResponseChunk c s =
      { s with isStreaming := true, isWaitingForResponse := false
               chatMessages :=
                 (s.chatMessages.set s.currentResponseIndex.toNat
                   { turnAt s.chatMessages s.currentResponseIndex.toNat with
                       content :=
                         (turnAt s.chatMessages s.currentResponseIndex.toNat).content
                           ++ c }) } := by
  simp only [appendResponseChunk]
  rw [dif_pos h, turnAt_eq_get _ _ h.2]

theorem appendResponseChunk_invalid_pc (c : String) (s : SessionState)
    (h : ¬ validIdx s.currentResponseIndex s.chatMessages.length) :
    appendResponseChunk c s =
      { s with isStreaming := true, isWaitingForResponse := false
               chatMessages :=
                 s.chatMessages ++ [{ type := .chunk, content := c, isComplete := some false }]
               currentResponseIndex := (s.chatMessages.length : Int) } := by
  simp only [appendResponseChunk]
  rw [dif_neg h]

theorem completeCurrentResponse_valid (s : SessionState)
    (h : validIdx s.currentResponseIndex s.chatMessages.length) :
    completeCurrentResponse s =
      { s with chatMessages :=
                 (s.chatMessages.set s.currentResponseIndex.toNat
                   { turnAt s.chatMessages s.currentResponseIndex.toNat with
                       type := .response, isComplete := some true })
               currentResponseIndex := -1 } := by
  simp only [completeCurrentResponse]
  rw [dif_pos h, turnAt_eq_get _ _ h.2]

theorem completeCurrentResponse_invalid (s : SessionState)
    (h : ¬ validIdx s.currentResponseIndex s.chatMessages.length) :
    completeCurrentResponse s = s := by
  simp only [completeCurrentResponse]
  rw [dif_neg h]

end ProjectsChat

namespace ChatComponent

theorem completeCurrentResponse_eq (s : SessionState) :
    completeCurrentResponse s =
      { s with isStreaming := false, isWaitingForResponse := false
               currentResponseIndex :=
                 if 0 ≤ s.currentResponseIndex then -1 else s.currentResponseIndex } := by
  simp only [completeCurrentResponse]
  split
  · next hle => rfl
  · next hle => rfl

theorem onmessage_chunk_cc (f : Frame) (s : SessionState) (h : f.type = some "chunk") :
    onmessage f s = appendResponseChunk (jsStr f.data) s := by
  simp only [onmessage]
  rw [if_pos h]

theorem onmessage_endlike_cc (f : Frame) (s : SessionState)
    (h : f.type = some "end" ∨ f.type = some "done") :
    onmessage f s =
      addMessage .system "--- End of Response ---" true
        { completeCurrentResponse s with isStreaming := false, isWaitingForResponse := false } := by
  have hne : ¬ f.type = some "chunk" := by rcases h with h | h <;> simp [h]
  simp only [onmessage]
  rw [if_neg hne, if_pos h]

theorem onmessage_cancelled_cc (f : Frame) (s : SessionState) (h : f.type = some "cancelled") :
    onmessage f s =
      addMessage .system ("--- Request cancelled: " ++ jsStr f.message ++ " ---") true
        { completeCurrentResponse s with isStreaming := false, isWaitingForResponse := false } := by
  have h1 : ¬ f.type = some "chunk" := by simp [h]
  have h2 : ¬ (f.type = some "end" ∨ f.type = some "done") := by simp [h]
  simp only [onmessage]
  rw [if_neg h1, if_neg h2, if_pos h]

theorem onmessage_error_cc (f : Frame) (s : SessionState)
    (h1 : f.type ≠ some "chunk") (h2 : f.type ≠ some "end") (h3 : f.type ≠ some "done")
    (h4 : f.type ≠ some "cancelled") (h5 : truthy f.error = true) :
    onmessage f s =
      addMessage .error ("Error: " ++ jsStr f.error) true
        { s with isStreaming := false, isWaitingForResponse := false } := by
  simp only [onmessage]
  rw [if_neg h1, if_neg (not_or.mpr ⟨h2, h3⟩), if_neg h4, if_pos h5]

theorem onmessage_unknown_cc (f : Frame) (s : SessionState)
    (h1 : f.type ≠ some "chunk") (h2 : f.type ≠ some "end") (h3 : f.type ≠ some "done")
    (h4 : f.type ≠ some "cancelled") (h5 : truthy f.error = false) :
    onmessage f s = s := by
  simp only [onmessage]
  rw [if_neg h1, if_neg (not_or.mpr ⟨h2, h3⟩), if_neg h4, if_neg (by simp [h5])]

end ChatComponent

namespace ProjectsChat

theorem onmessage_chunk_pc (f : Frame) (s : SessionState) (h : f.type = some "chunk") :
    onmessage f s = appendResponseChunk (jsStr f.data) s := by
  simp only [onmessage]
  rw [if_pos h]

theorem onmessage_endlike_pc (f : Frame) (s : SessionState)
    (h : f.type = some "end" ∨ f.type = some "done") :
    onmessage f s =
      addMessage .system "--- End of Response ---" true
        { completeCurrentResponse s with isStreaming := false, isWaitingForResponse := false } := by
  have hne : ¬ f.type = some "chunk" := by rcases h with h | h <;> simp [h]
  simp only [onmessage]
  rw [if_neg hne, if_pos h]

theorem onmessage_cancelled_pc (f : Frame) (s : SessionState) (h : f.type = some "cancelled") :
    onmessage f s =
      addMessage .system ("--- Request cancelled: " ++ jsStr f.message ++ " ---") true
        { completeCurrentResponse s with isStreaming := false, isWaitingForResponse := false } := by
  have h1 : ¬ f.type = some "chunk" := by simp [h]
  have h2 : ¬ (f.type = some "end" ∨ f.type = some "done") := by simp [h]
  simp only [onmessage]
  rw [if_neg h1, if_neg h2, if_pos h]

theorem onmessage_error_pc (f : Frame) (s : SessionState)
    (h1 : f.type ≠ some "chunk") (h2 : f.type ≠ some "end") (h3 : f.type ≠ some "done")
    (h4 : f.type ≠ some "cancelled") (h5 : truthy f.error = true) :
    onmessage f s =
      addMessage .error ("Error: " ++ jsStr f.error) true
        { s with isStreaming := false, isWaitingForResponse := false } := by
  simp only [onmessage]
  rw [if_neg h1, if_neg (not_or.mpr ⟨h2, h3⟩), if_neg h4, if_pos h5]

theorem onmessage_unknown_pc (f : Frame) (s : SessionState)
    (h1 : f.type ≠ some "chunk") (h2 : f.type ≠ some "end") (h3 : f.type ≠ some "done")
    (h4 : f.type ≠ some "cancelled") (h5 : truthy f.error = false) :
    onmessage f s = s := by
  simp only [onmessage]
  rw [if_neg h1, if_neg (not_or.mpr ⟨h2, h3⟩), if_neg h4, if_neg (by simp [h5])]

end ProjectsChat

namespace ChatComponent

theorem appendChunks_spec_cc :
    ∀ (cs : List String) (s : SessionState)
      (h : validIdx s.currentResponseIndex s.chatMessages.length),
      (appendChunks cs s).chatMessages =
        s.chatMessages.set s.currentResponseIndex.toNat
          { turnAt s.chatMessages s.currentResponseIndex.toNat with
              content := (turnAt s.chatMessages s.currentResponseIndex.toNat).content
                ++ concatAll cs } ∧
      (appendChunks cs s).currentResponseIndex = s.currentResponseIndex := by
  intro cs
  induction cs with
  | nil =>
    intro s h
    refine ⟨?_, rfl⟩
    simp only [concatAll, String.append_empty]
    rw [turnAt_eq_get _ _ h.2]
    exact (set_get_self _ _ h.2).symm
  | cons c rest ih =>
    intro s h
    have hstep := appendResponseChunk_valid_cc c s h
    have hvalid' : validIdx (appendResponseChunk c s).currentResponseIndex
        (appendResponseChunk c s).chatMessages.length := by
      rw [hstep]
      exact ⟨h.1, by simpa using h.2⟩
    obtain ⟨ih1, ih2⟩ := ih (appendResponseChunk c s) hvalid'
    constructor
    · show (appendChunks rest (appendResponseChunk c s)).chatMessages = _
      rw [ih1, hstep]
      simp only [List.set_set]
      rw [turnAt_set _ _ _ h.2]
      simp only [concatAll]
      rw [String.append_assoc]
    · show (appendChunks rest (appendResponseChunk c s)).currentResponseIndex = _
      rw [ih2, hstep]

end ChatComponent

namespace ProjectsChat

theorem appendChunks_spec_pc :
    ∀ (cs : List String) (s : SessionState)
      (h : validIdx s.currentResponseIndex s.chatMessages.length),
      (appendChunks cs s).chatMessages =
        s.chatMessages.set s.currentResponseIndex.toNat
          { turnAt s.chatMessages s.currentResponseIndex.toNat with
              content := (turnAt s.chatMessages s.currentResponseIndex.toNat).content
                ++ concatAll cs } ∧
      (appendChunks cs s).currentResponseIndex = s.currentResponseIndex := by
  intro cs
  induction cs with
  | nil =>
    intro s h
    refine ⟨?_, rfl⟩
    simp only [concatAll, String.append_empty]
    rw [turnAt_eq_get _ _ h.2]
    exact (set_get_self _ _ h.2).symm
  | cons c rest ih =>
    intro s h
    have hstep := appendResponseChunk_valid_pc c s h
    have hvalid' : validIdx (appendResponseChunk c s).currentResponseIndex
        (appendResponseChunk c s).chatMessages.length := by
      rw [hstep]
      exact ⟨h.1, by simpa using h.2⟩
    obtain ⟨ih1, ih2⟩ := ih (appendResponseChunk c s) hvalid'
    constructor
    · show (appendChunks rest (appendResponseChunk c s)).chatMessages = _
      rw [ih1, hstep]
      simp only [List.set_set]
      rw [turnAt_set _ _ _ h.2]
      simp only [concatAll]
      rw [String.append_assoc]
    · show (appendChunks rest (appendResponseChunk c s)).currentResponseIndex = _
      rw [ih2, hstep]

end ProjectsChat

theorem turnAt_concat (l : List InternalMessage) (a : InternalMessage) :
    turnAt (l ++ [a]) l.length = a := by
  simp [turnAt, List.getD_eq_getElem?_getD, List.getElem?_concat_length]

namespace ChatComponent

theorem appendChunks_fresh_cc (c : String) (cs : List String) (t : SessionState)
    (ht : ¬ validIdx t.currentResponseIndex t.chatMessages.length) :
    (appendChunks (c :: cs) t).chatMessages =
      t.chatMessages ++ [{ type := .chunk, content := concatAll (c :: cs), isComplete := none }] ∧
    (appendChunks (c :: cs) t).currentResponseIndex = (t.chatMessages.length : Int) := by
  have hstep := appendResponseChunk_invalid_cc c t ht
  have hvalid' : validIdx (appendResponseChunk c t).currentResponseIndex
      (appendResponseChunk c t).chatMessages.length := by
    rw [hstep]
    refine ⟨Int.natCast_nonneg _, ?_⟩
    simp
  obtain ⟨h1, h2⟩ := appendChunks_spec_cc cs (appendResponseChunk c t) hvalid'
  constructor
  · show (appendChunks cs (appendResponseChunk c t)).chatMessages = _
    rw [h1, hstep]
    simp only [Int.toNat_natCast]
    rw [List.set_append_right _ _ (Nat.le_refl _), turnAt_concat]
    simp [concatAll]
  · show (appendChunks cs (appendResponseChunk c t)).currentResponseIndex = _
    rw [h2, hstep]

end ChatComponent

namespace ProjectsChat

theorem appendChunks_fresh_pc (c : String) (cs : List String) (t : SessionState)
    (ht : ¬ validIdx t.currentResponseIndex t.chatMessages.length) :
    (appendChunks (c :: cs) t).chatMessages =
      t.chatMessages ++ [{ type := .chunk, content := concatAll (c :: cs), isComplete := some false }] ∧
    (appendChunks (c :: cs) t).currentResponseIndex = (t.chatMessages.length : Int) := by
  have hstep := appendResponseChunk_invalid_pc c t ht
  have hvalid' : validIdx (appendResponseChunk c t).currentResponseIndex
      (appendResponseChunk c t).chatMessages.length := by
    rw [hstep]
    refine ⟨Int.natCast_nonneg _, ?_⟩
    simp
  obtain ⟨h1, h2⟩ := appendChunks_spec_pc cs (appendResponseChunk c t) hvalid'
  constructor
  · show (appendChunks cs (appendResponseChunk c t)).chatMessages = _
    rw [h1, hstep]
    simp only [Int.toNat_natCast]
    rw [List.set_append_right _ _ (Nat.le_refl _), turnAt_concat]
    simp [concatAll]
  · show (appendChunks cs (appendResponseChunk c t)).currentResponseIndex = _
    rw [h2, hstep]

end ProjectsChat

/-- C1: For every sequence of chunk frames processed while the in-progress
reference stays valid (the same assistant turn), the resulting assistant
turn's text equals the existing text with the concatenation of the
fragment payloads in delivery order appended (never replaced), and the
reference is unchanged; when no turn is in progress, the chunks accumulate
into exactly one new assistant turn whose text is the concatenation of all
payloads — in both chat components. -/
theorem chunk_concatenation (s t : SessionState) (cs : List String) (c : String)
    (hs : validIdx s.currentResponseIndex s.chatMessages.length)
    (ht : ¬ validIdx t.currentResponseIndex t.chatMessages.length) :
    ((ChatComponent.appendChunks cs s).chatMessages =
        s.chatMessages.set s.currentResponseIndex.toNat
          { turnAt s.chatMessages s.currentResponseIndex.toNat with
              content := (turnAt s.chatMessages s.currentResponseIndex.toNat).content
                ++ concatAll cs } ∧
      (ChatComponent.appendChunks cs s).currentResponseIndex = s.currentResponseIndex) ∧
    ((ProjectsChat.appendChunks cs s).chatMessages =
        s.chatMessages.set s.currentResponseIndex.toNat
          { turnAt s.chatMessages s.currentResponseIndex.toNat with
              content := (turnAt s.chatMessages s.currentResponseIndex.toNat).content
                ++ concatAll cs } ∧
      (ProjectsChat.appendChunks cs s).currentResponseIndex = s.currentResponseIndex) ∧
    ((ChatComponent.appendChunks (c :: cs) t).chatMessages =
        t.chatMessages ++ [{ type := .chunk, content := concatAll (c :: cs), isComplete := none }]) ∧
    ((ProjectsChat.appendChunks (c :: cs) t).chatMessages =
        t.chatMessages ++ [{ type := .chunk, content := concatAll (c :: cs), isComplete := some false }]) :=
  ⟨ChatComponent.appendChunks_spec_cc cs s hs, ProjectsChat.appendChunks_spec_pc cs s hs,
   (ChatComponent.appendChunks_fresh_cc c cs t ht).1, (ProjectsChat.appendChunks_fresh_pc c cs t ht).1⟩

/-- Witness for C1 at a concrete state: a turn holding "He" extended by the
fragments "llo" and "!" yields the turn "Hello!". -/
theorem chunk_concatenation_witness :
    (ChatComponent.appendChunks ["llo", "!"]
        { initState "s" false none none with
            chatMessages := [{ type := .chunk, content := "He", isComplete := none }]
            currentResponseIndex := 0 }).chatMessages =
      [{ type := .chunk, content := "Hello!", isComplete := none }] :=
  (chunk_concatenation
      { initState "s" false none none with
          chatMessages := [{ type := .chunk, content := "He", isComplete := none }]
          currentResponseIndex := 0 }
      (initState "s" false none none) ["llo", "!"] "He"
      (by decide) (by decide)).1.1.trans (by decide)

/-- C6: Submitting a query that is empty after trimming, or submitting
while the connection is not open, is a no-op in both components: the whole
state — transcript, flags, input, outbound log — is unchanged and no frame
is sent. -/
theorem sendQuery_noop (s : SessionState)
    (h : s.query.trim = "" ∨ wsIsOpen s.ws = false) :
    ChatComponent.sendQuery s = s ∧ ProjectsChat.sendQuery s = s := by
  constructor
  · simp only [ChatComponent.sendQuery]
    rw [if_pos h]
  · simp only [ProjectsChat.sendQuery]
    rw [if_pos h]

/-- Witness for C6: a non-empty query typed while the socket is absent is
dropped by both components. -/
theorem sendQuery_noop_witness :
    wsIsOpen ({ initState "s" false none none with query := "hello" } :
        SessionState).ws = false ∧
    ChatComponent.sendQuery { initState "s" false none none with query := "hello" } =
      { initState "s" false none none with query := "hello" } ∧
    ProjectsChat.sendQuery { initState "s" false none none with query := "hello" } =
      { initState "s" false none none with query := "hello" } :=
  ⟨by decide,
   (sendQuery_noop { initState "s" false none none with query := "hello" }
      (Or.inr (by decide))).1,
   (sendQuery_noop { initState "s" false none none with query := "hello" }
      (Or.inr (by decide))).2⟩

/-- C7: connect is idempotent while a connection is open, in both
components: the state is unchanged, so no second socket is created and no
duplicate Connected notice is appended. -/
theorem connect_idempotent (s : SessionState) (h : wsIsOpen s.ws = true) :
    ChatComponent.connect s = s ∧ ProjectsChat.connect s = s := by
  constructor
  · simp only [ChatComponent.connect]
    rw [if_pos h]
  · simp only [ProjectsChat.connect]
    rw [if_pos h]

/-- Witness for C7 on a concrete connected state. -/
theorem connect_idempotent_witness :
    wsIsOpen ({ initState "s" false none none with
        ws := some { url := "ws://localhost:8000/ws/query", readyState := .OPEN } } :
      SessionState).ws = true ∧
    ChatComponent.connect
        { initState "s" false none none with
            ws := some { url := "ws://localhost:8000/ws/query", readyState := .OPEN } } =
      { initState "s" false none none with
          ws := some { url := "ws://localhost:8000/ws/query", readyState := .OPEN } } :=
  ⟨by decide,
   (connect_idempotent
      { initState "s" false none none with
          ws := some { url := "ws://localhost:8000/ws/query", readyState := .OPEN } }
      (by decide)).1⟩

/-- C10: An inbound frame whose type is none of chunk, end, done or
cancelled and whose error field is absent or falsy changes nothing in
either component: the whole state, transcript, reference, flags and
outbound log included, is untouched. -/
theorem unknown_frame_noop (f : Frame) (s : SessionState)
    (h1 : f.type ≠ some "chunk") (h2 : f.type ≠ some "end") (h3 : f.type ≠ some "done")
    (h4 : f.type ≠ some "cancelled") (h5 : truthy f.error = false) :
    ChatComponent.onmessage f s = s ∧ ProjectsChat.onmessage f s = s :=
  ⟨ChatComponent.onmessage_unknown_cc f s h1 h2 h3 h4 h5,
   ProjectsChat.onmessage_unknown_pc f s h1 h2 h3 h4 h5⟩

/-- Witness for C10: a status frame is ignored by both components. -/
theorem unknown_frame_noop_witness :
    ChatComponent.onmessage
        { type := some "status", data := none, message := none, error := none }
        (initState "s" false none none) =
      initState "s" false none none ∧
    ProjectsChat.onmessage
        { type := some "status", data := none, message := none, error := none }
        (initState "s" false none none) =
      initState "s" false none none :=
  unknown_frame_noop
    { type := some "status", data := none, message := none, error := none }
    (initState "s" false none none)
    (by decide) (by decide) (by decide) (by decide) (by decide)

/-- C8: A frame carrying a truthy error field (and none of the four type
discriminants) clears the streaming and waiting flags and appends exactly
one error turn; everything else — the in-progress reference, the
in-progress turn, the socket, the outbound log — is unchanged and the
connection is not closed, in both components. -/
theorem error_frame_effect (f : Frame) (s : SessionState)
    (h1 : f.type ≠ some "chunk") (h2 : f.type ≠ some "end") (h3 : f.type ≠ some "done")
    (h4 : f.type ≠ some "cancelled") (h5 : truthy f.error = true) :
    ChatComponent.onmessage f s =
      { s with isStreaming := false, isWaitingForResponse := false
               chatMessages := s.chatMessages ++
                 [{ type := .error, content := "Error: " ++ jsStr f.error,
                    isComplete := some true }] } ∧
    ProjectsChat.onmessage f s =
      { s with isStreaming := false, isWaitingForResponse := false
               chatMessages := s.chatMessages ++
                 [{ type := .error, content := "Error: " ++ jsStr f.error,
                    isComplete := some true }] } := by
  constructor
  · rw [ChatComponent.onmessage_error_cc f s h1 h2 h3 h4 h5]
    rfl
  · rw [ProjectsChat.onmessage_error_pc f s h1 h2 h3 h4 h5]
    rfl

/-- Witness for C8 on a concrete error frame. -/
theorem error_frame_effect_witness :
    ChatComponent.onmessage
        { type := none, data := none, message := none, error := some "boom" }
        (initState "s" false none none) =
      { initState "s" false none none with
          isStreaming := false, isWaitingForResponse := false
          chatMessages := [{ type := .error, content := "Error: boom", isComplete := some true }] } :=
  ((error_frame_effect
      { type := none, data := none, message := none, error := some "boom" }
      (initState "s" false none none)
      (by decide) (by decide) (by decide) (by decide) (by decide)).1).trans (by decide)

/-- C9: Finalization is idempotent.  In both components applying
completeCurrentResponse twice equals applying it once; and a cancelled
frame processed after the optimistic clear leaves every existing turn's
text and completion state untouched: in projects/Chat.tsx (where the
optimistic cancel has already finalized, so no turn is in progress) the
frame only clears the flags and appends the system notice, and in
ChatComponent.tsx the frame never edits existing turns at all — it only
appends the system notice. -/
theorem finalize_idempotent (s u : SessionState) (m : String)
    (hu : ¬ validIdx u.currentResponseIndex u.chatMessages.length) :
    ChatComponent.completeCurrentResponse (ChatComponent.completeCurrentResponse s) =
      ChatComponent.completeCurrentResponse s ∧
    ProjectsChat.completeCurrentResponse (ProjectsChat.completeCurrentResponse s) =
      ProjectsChat.completeCurrentResponse s ∧
    ProjectsChat.onmessage
        { type := some "cancelled", data := none, message := some m, error := none } u =
      { u with isStreaming := false, isWaitingForResponse := false
               chatMessages := u.chatMessages ++
                 [{ type := .system, content := "--- Request cancelled: " ++ m ++ " ---",
                    isComplete := some true }] } ∧
    (ChatComponent.onmessage
        { type := some "cancelled", data := none, message := some m, error := none } s).chatMessages =
      s.chatMessages ++
        [{ type := .system, content := "--- Request cancelled: " ++ m ++ " ---",
           isComplete := some true }] := by
  refine ⟨?_, ?_, ?_, ?_⟩
  · by_cases h : 0 ≤ s.currentResponseIndex <;>
      simp [ChatComponent.completeCurrentResponse_eq, h]
  · by_cases h : validIdx s.currentResponseIndex s.chatMessages.length
    · rw [ProjectsChat.completeCurrentResponse_valid s h]
      apply ProjectsChat.completeCurrentResponse_invalid
      intro hc
      have hneg : (0 : Int) ≤ -1 := hc.1
      exact absurd hneg (by decide)
    · rw [ProjectsChat.completeCurrentResponse_invalid s h]
      exact ProjectsChat.completeCurrentResponse_invalid s h
  · rw [ProjectsChat.onmessage_cancelled_pc _ _ rfl,
        ProjectsChat.completeCurrentResponse_invalid u hu]
    rfl
  · rw [ChatComponent.onmessage_cancelled_cc _ _ rfl, ChatComponent.completeCurrentResponse_eq]
    rfl

/-- Witness for C9 at a concrete mid-stream state and a concrete
already-finalized state. -/
theorem finalize_idempotent_witness :
    ChatComponent.completeCurrentResponse
        (ChatComponent.completeCurrentResponse
          { initState "s" false none none with
              chatMessages := [{ type := .chunk, content := "He", isComplete := none }]
              currentResponseIndex := 0 }) =
      ChatComponent.completeCurrentResponse
        { initState "s" false none none with
            chatMessages := [{ type := .chunk, content := "He", isComplete := none }]
            currentResponseIndex := 0 } ∧
    ProjectsChat.onmessage
        { type := some "cancelled", data := none, message := some "stopped", error := none }
        (initState "s" false none none) =
      { initState "s" false none none with
          isStreaming := false, isWaitingForResponse := false
          chatMessages :=
            [{ type := .system, content := "--- Request cancelled: stopped ---",
               isComplete := some true }] } :=
  ⟨(finalize_idempotent
      { initState "s" false none none with
          chatMessages := [{ type := .chunk, content := "He", isComplete := none }]
          currentResponseIndex := 0 }
      (initState "s" false none none) "stopped" (by decide)).1,
   ((finalize_idempotent
      { initState "s" false none none with
          chatMessages := [{ type := .chunk, content := "He", isComplete := none }]
          currentResponseIndex := 0 }
      (initState "s" false none none) "stopped" (by decide)).2.2.1).trans (by decide)⟩

/-- C4 (the code contradicts the claim): disconnect() only closes the
socket and nulls the ref; no pending timer is cancelled, and the close
event of the disposed socket still runs the onclose handler, which
schedules a reconnect.  When that 3000 ms timer elapses its guard passes —
wsRef is null — so connect() opens a fresh socket after disposal.  Both
components run the same teardown; the run below counts two sockets ever
created and a live socket handle after teardown. -/
theorem reconnect_fires_after_teardown :
    (ChatComponent.reconnectTick
        (onclose (disconnect (onopen (ChatComponent.connect
          (initState "s" false none none)))))).socketsCreated = 2 ∧
    (ChatComponent.reconnectTick
        (onclose (disconnect (onopen (ChatComponent.connect
          (initState "s" false none none)))))).ws ≠ none ∧
    (ProjectsChat.reconnectTick
        (onclose (disconnect (onopen (ProjectsChat.connect
          (initState "s" false none none)))))).socketsCreated = 2 ∧
    (ProjectsChat.reconnectTick
        (onclose (disconnect (onopen (ProjectsChat.connect
          (initState "s" false none none)))))).ws ≠ none := by
  decide

/-- C5 counterexample: with the page served over https and an insecure
configured URL, ChatComponent.tsx opens the socket on the unupgraded ws://
URL — its connect path never consults the page scheme. -/
theorem chatcomponent_no_scheme_upgrade :
    (initState "s" true (some "ws://api.example.com/ws/query") none).pageHttps = true ∧
    (ChatComponent.connect (initState "s" true (some "ws://api.example.com/ws/query") none)).ws =
      some { url := "ws://api.example.com/ws/query", readyState := .CONNECTING } ∧
    strStartsWith "ws://api.example.com/ws/query" "wss:" = false := by
  decide

/-- C5 amended: projects/Chat.tsx upgrades the scheme — a configured ws://
URL becomes wss:// when the page is https, and the URL built without an
env URL uses the wss scheme; both connect paths open the socket on their
wsUrl; ChatComponent.tsx uses the configured URL verbatim with no
upgrade. -/
theorem scheme_upgrade (u : String) (hostEnv : Option String) (s : SessionState)
    (hu : strStartsWith u "ws://" = true) (hopen : wsIsOpen s.ws = false) :
    ProjectsChat.wsUrl true (some u) hostEnv = "wss://" ++ strDrop u 5 ∧
    ProjectsChat.wsUrl true none none = "wss://localhost:8000/ws/query" ∧
    ChatComponent.wsUrl (some u) = u ∧
    (ProjectsChat.connect s).ws =
      some { url := ProjectsChat.wsUrl s.pageHttps s.envWsUrl s.envApiHost
             readyState := .CONNECTING } ∧
    (ChatComponent.connect s).ws =
      some { url := ChatComponent.wsUrl s.envWsUrl, readyState := .CONNECTING } := by
  have hne : u ≠ "" := by
    intro he
    rw [he] at hu
    exact absurd hu (by decide)
  have htruthy : truthy (some u) = true := by
    simp [truthy, hne]
  refine ⟨?_, by decide, ?_, ?_, ?_⟩
  · simp only [ProjectsChat.wsUrl, htruthy, if_true, jsStr]
    rw [if_pos ⟨hu, trivial⟩]
  · simp only [ChatComponent.wsUrl, htruthy, if_true, jsStr]
  · simp only [ProjectsChat.connect]
    rw [if_neg (by simp [hopen])]
  · simp only [ChatComponent.connect]
    rw [if_neg (by simp [hopen])]

/-- Witness for the amended C5 at a concrete URL and state. -/
theorem scheme_upgrade_witness :
    ProjectsChat.wsUrl true (some "ws://a/b") none = "wss://a/b" ∧
    (ProjectsChat.connect (initState "s" true (some "ws://a/b") none)).ws =
      some { url := "wss://a/b", readyState := .CONNECTING } :=
  ⟨(scheme_upgrade "ws://a/b" none (initState "s" true (some "ws://a/b") none)
      (by decide) (by decide)).1.trans (by decide),
   ((scheme_upgrade "ws://a/b" none (initState "s" true (some "ws://a/b") none)
      (by decide) (by decide)).2.2.2.1).trans (by decide)⟩

/-- C3 counterexample: in ChatComponent.tsx, processing an end frame while
a chunk turn is in progress does NOT set that turn's complete flag — the
turn keeps no isComplete value (it never becomes true). -/
theorem end_frame_leaves_turn_incomplete :
    (ChatComponent.onmessage
        { type := some "chunk", data := some "a", message := none, error := none }
        (initState "s" false none none)).currentResponseIndex = 0 ∧
    (ChatComponent.onmessage
        { type := some "end", data := none, message := none, error := none }
        (ChatComponent.onmessage
          { type := some "chunk", data := some "a", message := none, error := none }
          (initState "s" false none none))).chatMessages.head? =
      some { type := .chunk, content := "a", isComplete := none } := by
  decide

/-- C3 amended: an end, done or cancelled frame processed while a turn is
in progress finalizes it in projects/Chat.tsx — the turn becomes a
completed response with complete flag true, the reference is cleared, the
flags drop and a system notice is appended — while in ChatComponent.tsx
the frame clears the reference and the flags and appends the notice but
never sets the turn's complete flag; in both components a subsequent chunk
then starts a new turn instead of extending the previous one. -/
theorem finalizing_frame_effect (f : Frame) (s : SessionState)
    (hf : f.type = some "end" ∨ f.type = some "done" ∨ f.type = some "cancelled")
    (hs : validIdx s.currentResponseIndex s.chatMessages.length) :
    ProjectsChat.onmessage f s =
      { s with chatMessages :=
                 (s.chatMessages.set s.currentResponseIndex.toNat
                   { turnAt s.chatMessages s.currentResponseIndex.toNat with
                       type := .response, isComplete := some true })
                 ++ [{ type := .system, content := endNotice f, isComplete := some true }]
               currentResponseIndex := -1
               isStreaming := false, isWaitingForResponse := false } ∧
    ChatComponent.onmessage f s =
      { s with chatMessages := s.chatMessages
                 ++ [{ type := .system, content := endNotice f, isComplete := some true }]
               currentResponseIndex := -1
               isStreaming := false, isWaitingForResponse := false } ∧
    (∀ d, (ProjectsChat.appendResponseChunk d (ProjectsChat.onmessage f s)).chatMessages =
        (ProjectsChat.onmessage f s).chatMessages
          ++ [{ type := .chunk, content := d, isComplete := some false }]) ∧
    (∀ d, (ChatComponent.appendResponseChunk d (ChatComponent.onmessage f s)).chatMessages =
        (ChatComponent.onmessage f s).chatMessages
          ++ [{ type := .chunk, content := d, isComplete := none }]) := by
  have hP : ProjectsChat.onmessage f s =
      { s with chatMessages :=
                 (s.chatMessages.set s.currentResponseIndex.toNat
                   { turnAt s.chatMessages s.currentResponseIndex.toNat with
                       type := .response, isComplete := some true })
                 ++ [{ type := .system, content := endNotice f, isComplete := some true }]
               currentResponseIndex := -1
               isStreaming := false, isWaitingForResponse := false } := by
    rcases hf with h | h | h
    · rw [ProjectsChat.onmessage_endlike_pc f s (Or.inl h),
          ProjectsChat.completeCurrentResponse_valid s hs,
          show endNotice f = "--- End of Response ---" by simp [endNotice, h]]
      rfl
    · rw [ProjectsChat.onmessage_endlike_pc f s (Or.inr h),
          ProjectsChat.completeCurrentResponse_valid s hs,
          show endNotice f = "--- End of Response ---" by simp [endNotice, h]]
      rfl
    · rw [ProjectsChat.onmessage_cancelled_pc f s h,
          ProjectsChat.completeCurrentResponse_valid s hs,
          show endNotice f = "--- Request cancelled: " ++ jsStr f.message ++ " ---" by
            simp [endNotice, h]]
      rfl
  have hC : ChatComponent.onmessage f s =
      { s with chatMessages := s.chatMessages
                 ++ [{ type := .system, content := endNotice f, isComplete := some true }]
               currentResponseIndex := -1
               isStreaming := false, isWaitingForResponse := false } := by
    rcases hf with h | h | h
    · rw [ChatComponent.onmessage_endlike_cc f s (Or.inl h),
          ChatComponent.completeCurrentResponse_eq s,
          show endNotice f = "--- End of Response ---" by simp [endNotice, h],
          if_pos hs.1]
      rfl
    · rw [ChatComponent.onmessage_endlike_cc f s (Or.inr h),
          ChatComponent.completeCurrentResponse_eq s,
          show endNotice f = "--- End of Response ---" by simp [endNotice, h],
          if_pos hs.1]
      rfl
    · rw [ChatComponent.onmessage_cancelled_cc f s h,
          ChatComponent.completeCurrentResponse_eq s,
          show endNotice f = "--- Request cancelled: " ++ jsStr f.message ++ " ---" by
            simp [endNotice, h],
          if_pos hs.1]
      rfl
  have hinvP : ¬ validIdx (ProjectsChat.onmessage f s).currentResponseIndex
      (ProjectsChat.onmessage f s).chatMessages.length := by
    intro hc
    rw [hP] at hc
    have hneg : (0 : Int) ≤ -1 := hc.1
    exact absurd hneg (by decide)
  have hinvC : ¬ validIdx (ChatComponent.onmessage f s).currentResponseIndex
      (ChatComponent.onmessage f s).chatMessages.length := by
    intro hc
    rw [hC] at hc
    have hneg : (0 : Int) ≤ -1 := hc.1
    exact absurd hneg (by decide)
  refine ⟨hP, hC, ?_, ?_⟩
  · intro d
    rw [ProjectsChat.appendResponseChunk_invalid_pc d _ hinvP]
  · intro d
    rw [ChatComponent.appendResponseChunk_invalid_cc d _ hinvC]

/-- Witness for the amended C3: a cancelled frame finalizes the in-flight
turn "He" in the projects component. -/
theorem finalizing_frame_effect_witness :
    ProjectsChat.onmessage
        { type := some "cancelled", data := none, message := some "stopped", error := none }
        { initState "s" false none none with
            chatMessages := [{ type := .chunk, content := "He", isComplete := some false }]
            currentResponseIndex := 0 } =
      { initState "s" false none none with
          chatMessages :=
            [{ type := .response, content := "He", isComplete := some true },
             { type := .system, content := "--- Request cancelled: stopped ---",
               isComplete := some true }]
          currentResponseIndex := -1
          isStreaming := false, isWaitingForResponse := false } :=
  ((finalizing_frame_effect
      { type := some "cancelled", data := none, message := some "stopped", error := none }
      { initState "s" false none none with
          chatMessages := [{ type := .chunk, content := "He", isComplete := some false }]
          currentResponseIndex := 0 }
      (Or.inr (Or.inr rfl)) (by decide)).1).trans (by decide)

theorem incompleteOnlyAt_set_same (l : List InternalMessage) (k : Int) (a : InternalMessage)
    (hk : 0 ≤ k) (h : IncompleteOnlyAt l k) : IncompleteOnlyAt (l.set k.toNat a) k := by
  intro i hi hinc
  have hi' : i < l.length := by simpa using hi
  rcases eq_or_ne k.toNat i with he | hne
  · rw [← he]
    exact (Int.toNat_of_nonneg hk).symm
  · have he2 : (l.set k.toNat a)[i] = l[i] := List.getElem_set_ne hne hi
    rw [he2] at hinc
    exact h i hi' hinc

theorem incompleteOnlyAt_set_complete (l : List InternalMessage) (k : Int)
    (a : InternalMessage) (ha : a.isComplete = some true) (hlt : k.toNat < l.length)
    (h : IncompleteOnlyAt l k) : IncompleteOnlyAt (l.set k.toNat a) (-1 : Int) := by
  intro i hi hinc
  have hi' : i < l.length := by simpa using hi
  rcases eq_or_ne k.toNat i with he | hne
  · subst he
    have he2 : (l.set k.toNat a)[k.toNat] = a := List.getElem_set_self hi
    rw [he2, ha] at hinc
    exact absurd rfl hinc
  · have he2 : (l.set k.toNat a)[i] = l[i] := List.getElem_set_ne hne hi
    rw [he2] at hinc
    have hk := h i hi' hinc
    have : k.toNat = i := by omega
    exact absurd this hne

theorem incompleteOnlyAt_append_complete (l : List InternalMessage) (k : Int)
    (a : InternalMessage) (ha : a.isComplete = some true)
    (h : IncompleteOnlyAt l k) : IncompleteOnlyAt (l ++ [a]) k := by
  intro i hi hinc
  have hi' : i < l.length + 1 := by simpa using hi
  rcases Nat.lt_or_ge i l.length with hlt | hge
  · have he : (l ++ [a])[i] = l[i] := List.getElem_append_left hlt
    rw [he] at hinc
    exact h i hlt hinc
  · have hieq : i = l.length := by omega
    have he : (l ++ [a])[i] = a := List.getElem_concat_length _ _ _ hieq _
    rw [he, ha] at hinc
    exact absurd rfl hinc

theorem incompleteOnlyAt_append_new (l : List InternalMessage) (k : Int)
    (a : InternalMessage) (hinv : ¬ validIdx k l.length)
    (h : IncompleteOnlyAt l k) : IncompleteOnlyAt (l ++ [a]) (l.length : Int) := by
  intro i hi hinc
  have hi' : i < l.length + 1 := by simpa using hi
  rcases Nat.lt_or_ge i l.length with hlt | hge
  · have he : (l ++ [a])[i] = l[i] := List.getElem_append_left hlt
    rw [he] at hinc
    have hk := h i hlt hinc
    refine absurd ⟨by omega, by omega⟩ hinv
  · have hieq : i = l.length := by omega
    omega

theorem incompleteOnlyAt_single (k : Int) (a : InternalMessage)
    (ha : a.isComplete = some true) : IncompleteOnlyAt [a] k := by
  intro i hi hinc
  have hieq : i = 0 := by
    have : i < 1 := by simpa using hi
    omega
  subst hieq
  have he : ([a] : List InternalMessage)[0] = a := rfl
  rw [he, ha] at hinc
  exact absurd rfl hinc

theorem incompleteAtRef_addMessage (t : MsgType) (c : String) (s : SessionState)
    (h : IncompleteAtRef s) : IncompleteAtRef (addMessage t c true s) :=
  incompleteOnlyAt_append_complete _ _ _ rfl h

theorem incompleteAtRef_onopen (s : SessionState) (h : IncompleteAtRef s) :
    IncompleteAtRef (onopen s) := by
  cases hw : s.ws with
  | none =>
    simp only [onopen, hw]
    exact h
  | some w =>
    simp only [onopen, hw]
    exact incompleteAtRef_addMessage _ _ _ h

theorem incompleteAtRef_onclose (s : SessionState) (h : IncompleteAtRef s) :
    IncompleteAtRef (onclose s) := by
  cases hw : s.ws with
  | none =>
    simp only [onclose, hw]
    exact incompleteAtRef_addMessage _ _ _ h
  | some w =>
    simp only [onclose, hw]
    exact incompleteAtRef_addMessage _ _ _ h

theorem incompleteAtRef_onerror (e : String) (s : SessionState) (h : IncompleteAtRef s) :
    IncompleteAtRef (onerror e s) :=
  incompleteAtRef_addMessage _ _ _ h

theorem incompleteAtRef_disconnect (s : SessionState) (h : IncompleteAtRef s) :
    IncompleteAtRef (disconnect s) := by
  cases hw : s.ws with
  | none =>
    simp only [disconnect, hw]
    exact h
  | some w =>
    simp only [disconnect, hw]
    exact h

namespace ProjectsChat

theorem incompleteAtRef_appendChunk (c : String) (s : SessionState)
    (h : IncompleteAtRef s) : IncompleteAtRef (appendResponseChunk c s) := by
  by_cases hv : validIdx s.currentResponseIndex s.chatMessages.length
  · rw [appendResponseChunk_valid_pc c s hv]
    exact incompleteOnlyAt_set_same _ _ _ hv.1 h
  · rw [appendResponseChunk_invalid_pc c s hv]
    exact incompleteOnlyAt_append_new _ _ _ hv h

theorem incompleteAtRef_complete (s : SessionState)
    (h : IncompleteAtRef s) : IncompleteAtRef (completeCurrentResponse s) := by
  by_cases hv : validIdx s.currentResponseIndex s.chatMessages.length
  · rw [completeCurrentResponse_valid s hv]
    exact incompleteOnlyAt_set_complete _ _ _ rfl hv.2 h
  · rw [completeCurrentResponse_invalid s hv]
    exact h

theorem incompleteAtRef_onmessage (f : Frame) (s : SessionState)
    (h : IncompleteAtRef s) : IncompleteAtRef (onmessage f s) := by
  by_cases h1 : f.type = some "chunk"
  · rw [onmessage_chunk_pc f s h1]
    exact incompleteAtRef_appendChunk _ _ h
  · by_cases h2 : f.type = some "end" ∨ f.type = some "done"
    · rw [onmessage_endlike_pc f s h2]
      exact incompleteAtRef_addMessage _ _ _ (incompleteAtRef_complete _ h)
    · by_cases h3 : f.type = some "cancelled"
      · rw [onmessage_cancelled_pc f s h3]
        exact incompleteAtRef_addMessage _ _ _ (incompleteAtRef_complete _ h)
      · by_cases h4 : truthy f.error = true
        · rw [onmessage_error_pc f s h1 (fun x => h2 (Or.inl x)) (fun x => h2 (Or.inr x)) h3 h4]
          exact incompleteAtRef_addMessage _ _ _ h
        · have h4' : truthy f.error = false := by simpa using h4
          rw [onmessage_unknown_pc f s h1 (fun x => h2 (Or.inl x)) (fun x => h2 (Or.inr x)) h3 h4']
          exact h

theorem incompleteAtRef_sendQuery (s : SessionState)
    (h : IncompleteAtRef s) : IncompleteAtRef (sendQuery s) := by
  simp only [sendQuery]
  split
  · exact h
  · exact incompleteOnlyAt_append_complete _ _ _ rfl h

theorem incompleteAtRef_connect (s : SessionState)
    (h : IncompleteAtRef s) : IncompleteAtRef (connect s) := by
  simp only [connect]
  split
  · exact h
  · exact h

theorem incompleteAtRef_tick (s : SessionState)
    (h : IncompleteAtRef s) : IncompleteAtRef (reconnectTick s) := by
  simp only [reconnectTick]
  split
  · exact h
  · split
    · exact incompleteAtRef_connect _ h
    · split
      · exact incompleteAtRef_connect _ h
      · exact h

theorem incompleteAtRef_cancel (s : SessionState)
    (h : IncompleteAtRef s) : IncompleteAtRef (cancelRequest s) := by
  simp only [cancelRequest]
  split
  · exact h
  · exact incompleteAtRef_addMessage _ _ _ (incompleteAtRef_complete _ h)

theorem incompleteAtRef_newSession (sid : String) (s : SessionState) :
    IncompleteAtRef (handleNewSession sid s) :=
  incompleteOnlyAt_single _ _ rfl

theorem incompleteAtRef_pstep (e : PEvent) (s : SessionState)
    (h : IncompleteAtRef s) : IncompleteAtRef (pstep e s) := by
  cases e with
  | msg f => exact incompleteAtRef_onmessage f s h
  | openEv => exact incompleteAtRef_onopen s h
  | closeEv => exact incompleteAtRef_onclose s h
  | errEv e => exact incompleteAtRef_onerror e s h
  | typeQuery q => exact h
  | send => exact incompleteAtRef_sendQuery s h
  | cancel => exact incompleteAtRef_cancel s h
  | newSession sid => exact incompleteAtRef_newSession sid s
  | connectEv => exact incompleteAtRef_connect s h
  | disconnectEv => exact incompleteAtRef_disconnect s h
  | timer => exact incompleteAtRef_tick s h

theorem incompleteAtRef_run (evs : List PEvent) :
    ∀ s : SessionState, IncompleteAtRef s → IncompleteAtRef (run evs s) := by
  induction evs with
  | nil =>
    intro s h
    exact h
  | cons e rest ih =>
    intro s h
    exact ih _ (incompleteAtRef_pstep e s h)

end ProjectsChat

theorem incompleteAtRef_init (sid : String) (ph : Bool) (e1 e2 : Option String) :
    IncompleteAtRef (initState sid ph e1 e2) := by
  intro i hi _
  exact absurd hi (Nat.not_lt_zero i)

theorem incompleteAtRef_atMostOne (s : SessionState) (h : IncompleteAtRef s) :
    atMostOneIncomplete s := by
  intro i j hi hj hic hjc
  have h1 := h i hi hic
  have h2 := h j hj hjc
  omega

/-- C2 counterexample: in ChatComponent.tsx the reachable sequence chunk,
end, chunk leaves TWO incomplete assistant turns in the transcript — the
end frame clears the reference but never marks the first turn complete. -/
theorem two_incomplete_assistant_turns :
    ¬ atMostOneIncomplete
        (ChatComponent.onmessage
          { type := some "chunk", data := some "b", message := none, error := none }
          (ChatComponent.onmessage
            { type := some "end", data := none, message := none, error := none }
            (ChatComponent.onmessage
              { type := some "chunk", data := some "a", message := none, error := none }
              (initState "s" false none none)))) := by
  intro h
  have h02 := h 0 2 (by decide) (by decide) (by decide) (by decide)
  exact absurd h02 (by decide)

/-- C2 amended: in projects/Chat.tsx, at every state reachable by any
sequence of events — frames, socket callbacks, the reconnect timer, query
input and submission, cancellation, new-session resets — at most one turn
in the transcript is incomplete, and a chunk either extends the turn at
the valid in-progress reference (transcript length and reference
unchanged) or, when the reference is invalid, appends exactly one new
incomplete chunk turn.  In ChatComponent.tsx finalization never sets the
complete flag, so finished assistant turns stay incomplete and accumulate
(the counterexample), although the reference still designates at most one
turn receiving fragments. -/
theorem at_most_one_incomplete_turn :
    (∀ (evs : List ProjectsChat.PEvent) (sid : String) (ph : Bool) (e1 e2 : Option String),
      atMostOneIncomplete (ProjectsChat.run evs (initState sid ph e1 e2))) ∧
    (∀ (s : SessionState) (c : String),
      (validIdx s.currentResponseIndex s.chatMessages.length ∧
        (ProjectsChat.appendResponseChunk c s).chatMessages.length = s.chatMessages.length ∧
        (ProjectsChat.appendResponseChunk c s).currentResponseIndex = s.currentResponseIndex) ∨
      (¬ validIdx s.currentResponseIndex s.chatMessages.length ∧
        (ProjectsChat.appendResponseChunk c s).chatMessages =
          s.chatMessages ++ [{ type := .chunk, content := c, isComplete := some false }] ∧
        (ProjectsChat.appendResponseChunk c s).currentResponseIndex =
          (s.chatMessages.length : Int))) := by
  constructor
  · intro evs sid ph e1 e2
    exact incompleteAtRef_atMostOne _
      (ProjectsChat.incompleteAtRef_run evs _ (incompleteAtRef_init sid ph e1 e2))
  · intro s c
    by_cases hv : validIdx s.currentResponseIndex s.chatMessages.length
    · refine Or.inl ⟨hv, ?_, ?_⟩
      · rw [ProjectsChat.appendResponseChunk_valid_pc c s hv]
        simp
      · rw [ProjectsChat.appendResponseChunk_valid_pc c s hv]
    · refine Or.inr ⟨hv, ?_, ?_⟩
      · rw [ProjectsChat.appendResponseChunk_invalid_pc c s hv]
      · rw [ProjectsChat.appendResponseChunk_invalid_pc c s hv]
